import Mathlib

/-!
Verification of the Resilient Request Client of the currency-converter
frontend (`assets/js/api.js`, `assets/js/config.js`) against its
natural-language specification.

The JavaScript is shallowly embedded: the nondeterministic environment
(what `fetch` does on each attempt) is an oracle `Nat → FetchOutcome`
indexed by the 1-based attempt number, and `makeRequest` is the retry
loop of `ApiService.makeRequest`, instrumented to report how many fetch
attempts it performed and which backoff delays it slept.
-/

/-- A JavaScript `Error` as observed by `shouldRetry`: its `name` and
`message` properties. -/
structure JSError where
  name : String
  message : String
deriving DecidableEq, Repr

/-- What `fetch` does on one attempt, as seen by `makeRequest`:
it resolves with an ok response carrying a payload; resolves with a
non-ok response (status and statusText, turned into a thrown `Error` by
line 39 of api.js); rejects with an `AbortError` (the timeout guard's
`controller.abort()` fired — the caller-supplied `signal` is overwritten
by `controller.signal`, so no other source of `AbortError` exists here);
or rejects with a connection-level error (a `TypeError` such as
`Failed to fetch`). -/
inductive FetchOutcome where
  | ok (payload : String)
  | httpError (status : Nat) (statusText : String)
  | abortError
  | networkError (msg : String)
deriving DecidableEq, Repr

/-- Does `pat` occur at the head of `l`? (helper for substring search). -/
def leadMatch : List Char → List Char → Bool
  | [], _ => true
  | _ :: _, [] => false
  | a :: as, b :: bs => a == b && leadMatch as bs

/-- Does `pat` occur anywhere in `l`? (helper for substring search). -/
def hasSub (pat : List Char) : List Char → Bool
  | [] => leadMatch pat []
  | l@(_ :: bs) => leadMatch pat l || hasSub pat bs

/-- JavaScript `s.includes(sub)`: substring containment. -/
def jsIncludes (s sub : String) : Bool :=
  hasSub sub.toList s.toList

/-- The `Error` thrown by api.js line 39 for a non-ok response:
`new Error(\x60HTTP ${response.status}: ${response.statusText}\x60)`. -/
def httpErr (status : Nat) (statusText : String) : JSError :=
  { name := "Error", message := "HTTP " ++ toString status ++ ": " ++ statusText }

/-- The `AbortError` produced when the timeout guard aborts the fetch. -/
def abortErr : JSError :=
  { name := "AbortError", message := "The operation was aborted" }

/-- The `TypeError` produced by a connection-level fetch failure. -/
def netErr (msg : String) : JSError :=
  { name := "TypeError", message := msg }

/-- `ApiService.shouldRetry` (api.js lines 64-69):
`error.name === 'AbortError' || error.message.includes('fetch') ||
error.message.includes('5')`. -/
def shouldRetry (error : JSError) : Bool :=
  error.name == "AbortError" ||
  jsIncludes error.message "fetch" ||
  jsIncludes error.message "5"

deriving instance DecidableEq for Except

/-- Result of one guarded attempt (api.js lines 22-42): the value
returned or error thrown, plus whether the `setTimeout` timer is
released (cleared by line 36, or already fired) when the attempt ends. -/
structure AttemptExec where
  result : Except JSError String
  timerReleased : Bool
deriving DecidableEq, Repr

/-- One execution of the try-block body of `makeRequest` (api.js lines
22-42). When fetch resolves, `clearTimeout(timeoutId)` on line 36 runs
before the ok-check on line 38, so the timer is released on both the ok
path and the thrown `HTTP ...` path. When fetch rejects with the
guard's own `AbortError`, the timer has already fired. When fetch
rejects with a connection-level error, control jumps to the catch block
and line 36 is never executed: the timer stays armed. -/
def runAttempt : FetchOutcome → AttemptExec
  | .ok payload => { result := .ok payload, timerReleased := true }
  | .httpError s t => { result := .error (httpErr s t), timerReleased := true }
  | .abortError => { result := .error abortErr, timerReleased := true }
  | .networkError m => { result := .error (netErr m), timerReleased := false }

/-- `CONFIG.API.RETRY` (config.js lines 24-28): `MAX_ATTEMPTS` and the
base `DELAY` in milliseconds. -/
structure RetryConfig where
  MAX_ATTEMPTS : Nat
  DELAY : Nat
deriving DecidableEq, Repr

/-- The shipped configuration: `{MAX_ATTEMPTS: 3, DELAY: 1000}`. -/
def CONFIG_API_RETRY : RetryConfig :=
  { MAX_ATTEMPTS := 3, DELAY := 1000 }

/-- Observable outcome of a whole `makeRequest` call: the value returned
or error thrown to the caller, the number of fetch attempts performed,
and the backoff delays slept between attempts, in order. -/
structure RunResult where
  result : Except JSError String
  attempts : Nat
  delays : List Nat
deriving DecidableEq, Repr

/-- The retry loop of `ApiService.makeRequest` (api.js lines 20-57),
recursing on `fuel` for termination. Every call maintains
`MAX_ATTEMPTS - attempt ≤ fuel` (the top-level call passes
`fuel = MAX_ATTEMPTS`, `attempt = 1`, and each recursive call increases
`attempt` by 1 under the guard `attempt < MAX_ATTEMPTS`), so the
fuel-exhaustion row of the match is unreachable and the function agrees
with the JavaScript on every reachable argument. On a caught error,
line 45 retries iff `attempt < MAX_ATTEMPTS && shouldRetry(error)`,
sleeping `DELAY * 2 ^ (attempt - 1)` (line 49) before the recursive
call with `attempt + 1` (line 52); otherwise the error is rethrown. -/
def makeRequestGo (cfg : RetryConfig) (oracle : Nat → FetchOutcome) :
    Nat → Nat → RunResult
  | attempt, 0 =>
    match (runAttempt (oracle attempt)).result with
    | .ok payload => { result := .ok payload, attempts := 1, delays := [] }
    | .error e => { result := .error e, attempts := 1, delays := [] }
  | attempt, f + 1 =>
    match (runAttempt (oracle attempt)).result with
    | .ok payload => { result := .ok payload, attempts := 1, delays := [] }
    | .error e =>
      if decide (attempt < cfg.MAX_ATTEMPTS) && shouldRetry e then
        let r := makeRequestGo cfg oracle (attempt + 1) f
        { result := r.result, attempts := r.attempts + 1,
          delays := cfg.DELAY * 2 ^ (attempt - 1) :: r.delays }
      else { result := .error e, attempts := 1, delays := [] }

/-- `ApiService.makeRequest(url, options)`: the loop started at
`attempt = 1`. -/
def makeRequest (cfg : RetryConfig) (oracle : Nat → FetchOutcome) : RunResult :=
  makeRequestGo cfg oracle 1 cfg.MAX_ATTEMPTS

/-- Oracle for the C4 witness: a connection error on attempt 1, success
on every later attempt. -/
def successOracle2 : Nat → FetchOutcome := fun a =>
  if a = 1 then .networkError "Failed to fetch" else .ok "converted"

/-- Oracle for the C6 counterexample: the fetch of attempt 1 rejects
with an `AbortError`; any later attempt succeeds. -/
def cancelOracle : Nat → FetchOutcome := fun a =>
  if a = 1 then .abortError else .ok "pong"

/-- Reference retryability classification, modelled from the spec:
transient are connection-level errors, timeouts, and server-side errors
(any error whose associated status is in the 500-599 range); everything
else (4xx client errors, validation errors) is fatal. -/
def specTransient : FetchOutcome → Bool
  | .ok _ => false
  | .httpError status _ => decide (500 ≤ status) && decide (status ≤ 599)
  | .abortError => true
  | .networkError _ => true

/-- The code's retryability classification of an attempt outcome: the
error `makeRequest` observes for it, fed to `shouldRetry`. -/
def codeTransient (o : FetchOutcome) : Bool :=
  match (runAttempt o).result with
  | .ok _ => false
  | .error e => shouldRetry e

/-- Tagged result returned by the public operations of `ApiService`:
`{success: true, data}` or `{success: false, error}`. -/
inductive ApiResult (α : Type) where
  | success (data : α)
  | failure (error : String)
deriving DecidableEq, Repr

/-- `ApiService.checkHealth` (api.js lines 95-118): makes the request,
parses the body (`parse` is the oracle for `response.json()`), and the
catch block turns any thrown error into
`{success: false, error: message, status: 'unhealthy'}`. The second
component is the `status` field. -/
def checkHealth (cfg : RetryConfig) (oracle : Nat → FetchOutcome)
    (parse : String → Except JSError String) : ApiResult String × String :=
  match (makeRequest cfg oracle).result with
  | .error e => (.failure e.message, "unhealthy")
  | .ok payload =>
    match parse payload with
    | .error e => (.failure e.message, "unhealthy")
    | .ok data => (.success data, "healthy")

/-- `ApiService.getExchangeRates` (api.js lines 180-201). The
`baseCurrency` parameter only affects the request URL, which the oracle
abstracts. -/
def getExchangeRates (cfg : RetryConfig) (oracle : Nat → FetchOutcome)
    (parse : String → Except JSError String) (baseCurrency : String) :
    ApiResult String :=
  match (makeRequest cfg oracle).result with
  | .error e => .failure e.message
  | .ok payload =>
    match parse payload with
    | .error e => .failure e.message
    | .ok data => .success data

/-- `ApiService.getApiInfo` (api.js lines 207-228). -/
def getApiInfo (cfg : RetryConfig) (oracle : Nat → FetchOutcome)
    (parse : String → Except JSError String) : ApiResult String :=
  match (makeRequest cfg oracle).result with
  | .error e => .failure e.message
  | .ok payload =>
    match parse payload with
    | .error e => .failure e.message
    | .ok data => .success data

/-- A JavaScript value supplied as the `amount` field of the conversion
input: absent (`undefined`), a finite number, `NaN`, or a string
together with its `Number()` coercion (`none` when that coercion is
`NaN`, as for non-numeric text). -/
inductive JSAmount where
  | undef
  | num (q : ℚ)
  | nan
  | str (s : String) (coerced : Option ℚ)
deriving DecidableEq

/-- JavaScript truthiness of an `amount` value (`!amount` on api.js
line 130): `undefined`, `0`, `NaN` and the empty string are falsy. -/
def truthy : JSAmount → Bool
  | .undef => false
  | .num q => decide (q ≠ 0)
  | .nan => false
  | .str s _ => s != ""

/-- JavaScript `isNaN(amount)` (api.js line 134): coerces to a number
first, so `undefined` and non-numeric strings are `NaN` too. -/
def jsIsNaN : JSAmount → Bool
  | .undef => true
  | .num _ => false
  | .nan => true
  | .str _ c => c.isNone

/-- JavaScript `amount <= 0` (api.js line 134): numeric comparison
after coercion; comparisons involving `NaN` are false. -/
def jsLeZero : JSAmount → Bool
  | .undef => false
  | .num q => decide (q ≤ 0)
  | .nan => false
  | .str _ (some q) => decide (q ≤ 0)
  | .str _ none => false

/-- The conversion input `{amount, from, to}` destructured on api.js
line 127. `from` is a Lean keyword, hence `fromCurrency`/`toCurrency`. -/
structure ConversionData where
  amount : JSAmount
  fromCurrency : String
  toCurrency : String
deriving DecidableEq

/-- The parsed JSON body of a conversion response as inspected by
`convertCurrency` (api.js line 156): its `success` flag and optional
`error` message. -/
structure ConvertPayload where
  success : Bool
  error : Option String
deriving DecidableEq

/-- JavaScript `data.error || 'Conversion failed'` (api.js line 157):
an absent or empty message falls back to the default. -/
def jsOrElse (s : Option String) (dflt : String) : String :=
  match s with
  | some v => if v = "" then dflt else v
  | none => dflt

/-- `ApiService.convertCurrency` (api.js lines 125-173): validates the
input (lines 130-140), then posts the request and normalizes every
thrown error into `{success: false, error: message}`. The second
component counts the fetch attempts performed (0 when validation
fails before any request). The request body (`parseFloat`, uppercasing)
only affects what is sent over the wire, which the oracle abstracts. -/
def convertCurrency (cfg : RetryConfig) (oracle : Nat → FetchOutcome)
    (parse : String → Except JSError ConvertPayload) (d : ConversionData) :
    ApiResult ConvertPayload × Nat :=
  if !truthy d.amount || d.fromCurrency == "" || d.toCurrency == "" then
    (.failure "Missing required conversion parameters", 0)
  else if jsIsNaN d.amount || jsLeZero d.amount then
    (.failure "Amount must be a positive number", 0)
  else if d.fromCurrency == d.toCurrency then
    (.failure "Source and target currencies must be different", 0)
  else
    match (makeRequest cfg oracle).result with
    | .error e => (.failure e.message, (makeRequest cfg oracle).attempts)
    | .ok payload =>
      match parse payload with
      | .error e => (.failure e.message, (makeRequest cfg oracle).attempts)
      | .ok data =>
        if data.success then (.success data, (makeRequest cfg oracle).attempts)
        else (.failure (jsOrElse data.error "Conversion failed"),
              (makeRequest cfg oracle).attempts)

/-- A result of the tagged union has exactly one populated variant. -/
def wellTagged {α : Type} (r : ApiResult α) : Prop :=
  ((∃ d, r = .success d) ∧ ¬∃ m, r = .failure m) ∨
  ((∃ m, r = .failure m) ∧ ¬∃ d, r = .success d)

/-- The precondition of C9: the amount is missing, non-numeric, or not
strictly positive, or the source currency equals the target currency. -/
def invalidConversionInput (d : ConversionData) : Prop :=
  d.amount = .undef ∨ d.amount = .nan ∨
  (∃ q, d.amount = .num q ∧ q ≤ 0) ∨
  (∃ s, d.amount = .str s none) ∨
  (∃ s q, d.amount = .str s (some q) ∧ q ≤ 0) ∨
  d.fromCurrency = d.toCurrency

/-- Currency metadata record (config.js lines 70-95). -/
structure CurrencyInfo where
  name : String
  symbol : String
  flag : String
  decimals : Nat
deriving DecidableEq, Repr

/-- `CURRENCY_INFO` (config.js lines 70-95) as a lookup: the property
access yields the record for the four known keys and `undefined`
(`none`) for every other key. -/
def CURRENCY_INFO : String → Option CurrencyInfo
  | "USD" => some { name := "US Dollar", symbol := "$", flag := "🇺🇸", decimals := 2 }
  | "EUR" => some { name := "Euro", symbol := "€", flag := "🇪🇺", decimals := 2 }
  | "GBP" => some { name := "British Pound", symbol := "£", flag := "🇬🇧", decimals := 2 }
  | "JPY" => some { name := "Japanese Yen", symbol := "¥", flag := "🇯🇵", decimals := 0 }
  | _ => none

/-- JavaScript `code.toUpperCase()`: uppercase each character (the
character-list form of `String.toUpper`, which evaluates by structural
recursion). -/
def jsToUpper (s : String) : String :=
  String.mk (s.data.map Char.toUpper)

/-- `ConfigUtils.getCurrencyInfo` (config.js lines 126-133): look up the
uppercased code and fall back, via the JavaScript or-default idiom, to
a record reusing the original code as name and symbol, the generic
currency-exchange flag, and 2 decimals. -/
def getCurrencyInfo (code : String) : CurrencyInfo :=
  (CURRENCY_INFO (jsToUpper code)).getD
    { name := code, symbol := code, flag := "💱", decimals := 2 }

/-- The `d` fraction digits of `m` (taken mod `10 ^ d`), most
significant first. -/
def fracDigits : Nat → Nat → List Char
  | 0, _ => []
  | d + 1, m => Nat.digitChar (m / 10 ^ d) :: fracDigits d (m % 10 ^ d)

/-- Fixed-point rendering of a rational with `d` fraction digits: the
digit-count behavior of the `Intl.NumberFormat` call in `formatAmount`
with both minimumFractionDigits and maximumFractionDigits set to `d`
(grouping separators elided and the rounding mode abstracted to
round-half-up; C10 depends on neither). With `d = 0` no decimal point
is printed; otherwise exactly `d` fraction digits follow the point. -/
def formatFixed (q : ℚ) (d : Nat) : String :=
  let scaled : ℤ := ⌊q * (10 : ℚ) ^ d + 1 / 2⌋
  let m := scaled.natAbs
  let sign := if scaled < 0 then "-" else ""
  if d = 0 then sign ++ toString (m / 10 ^ d)
  else sign ++ toString (m / 10 ^ d) ++ "." ++ String.mk (fracDigits d (m % 10 ^ d))

/-- `ConfigUtils.formatAmount` (config.js lines 141-147): format the
amount with the currency's `decimals` fraction digits. -/
def formatAmount (amount : ℚ) (currency : String) : String :=
  formatFixed amount (getCurrencyInfo currency).decimals

/-- Every run performs at least one attempt. -/
theorem makeRequestGo_attempts_pos (cfg : RetryConfig) (oracle : Nat → FetchOutcome)
    (attempt fuel : Nat) : 1 ≤ (makeRequestGo cfg oracle attempt fuel).attempts := by
  cases fuel with
  | zero =>
    unfold makeRequestGo
    split <;> simp
  | succ f =>
    unfold makeRequestGo
    split
    · simp
    · split
      · simp
      · simp

/-- The attempt counter is strictly increasing and retrying requires
`attempt < MAX_ATTEMPTS`, so a run started at `attempt` performs at most
`MAX_ATTEMPTS - attempt + 1` attempts, whatever the fuel. -/
theorem makeRequestGo_attempts_le (cfg : RetryConfig) (oracle : Nat → FetchOutcome) :
    ∀ fuel attempt,
      (makeRequestGo cfg oracle attempt fuel).attempts ≤ cfg.MAX_ATTEMPTS - attempt + 1 := by
  intro fuel
  induction fuel with
  | zero =>
    intro attempt
    unfold makeRequestGo
    split <;> simp
  | succ f ih =>
    intro attempt
    unfold makeRequestGo
    split
    · simp
    · rename_i e _
      split
      · rename_i hcond
        have hlt : attempt < cfg.MAX_ATTEMPTS := by
          rcases (Bool.and_eq_true _ _).mp hcond with ⟨h1, _⟩
          exact of_decide_eq_true h1
        have := ih (attempt + 1)
        simp only
        omega
      · simp

/-- The i-th backoff delay (0-based, decided at attempt `attempt + i`)
of a run started at `attempt ≥ 1` is `DELAY * 2 ^ (attempt - 1 + i)`. -/
theorem makeRequestGo_delays_eq (cfg : RetryConfig) (oracle : Nat → FetchOutcome) :
    ∀ fuel attempt, 1 ≤ attempt →
      (makeRequestGo cfg oracle attempt fuel).delays =
        (List.range ((makeRequestGo cfg oracle attempt fuel).attempts - 1)).map
          (fun i => cfg.DELAY * 2 ^ (attempt - 1 + i)) := by
  intro fuel
  induction fuel with
  | zero =>
    intro attempt _
    unfold makeRequestGo
    split <;> simp
  | succ f ih =>
    intro attempt h1
    unfold makeRequestGo
    split
    · simp
    · rename_i e _
      split
      · have hpos := makeRequestGo_attempts_pos cfg oracle (attempt + 1) f
        have hrec := ih (attempt + 1) (by omega)
        simp only [Nat.add_sub_cancel]
        have hatt : (makeRequestGo cfg oracle (attempt + 1) f).attempts =
            ((makeRequestGo cfg oracle (attempt + 1) f).attempts - 1) + 1 := by omega
        rw [hatt, List.range_succ_eq_map, List.map_cons, List.map_map]
        have hzero : cfg.DELAY * 2 ^ (attempt - 1 + 0) = cfg.DELAY * 2 ^ (attempt - 1) := by
          rw [Nat.add_zero]
        rw [hzero]
        congr 1
        rw [hrec]
        congr 1
        funext i
        simp only [Function.comp_apply]
        congr 2
        omega
      · simp

/-- A run in which attempts before `k` fail with retryable errors and
attempt `k` succeeds: started at `attempt ≤ k` with enough fuel, it
returns attempt k's payload after exactly `k - attempt + 1` fetches. -/
theorem makeRequestGo_success (cfg : RetryConfig) (oracle : Nat → FetchOutcome)
    (k : Nat) (p : String)
    (hkN : k ≤ cfg.MAX_ATTEMPTS)
    (hsucc : (runAttempt (oracle k)).result = .ok p)
    (hfail : ∀ i, 1 ≤ i → i < k →
      ∃ e, (runAttempt (oracle i)).result = .error e ∧ shouldRetry e = true) :
    ∀ fuel attempt, 1 ≤ attempt → attempt ≤ k → cfg.MAX_ATTEMPTS - attempt ≤ fuel →
      (makeRequestGo cfg oracle attempt fuel).result = .ok p ∧
      (makeRequestGo cfg oracle attempt fuel).attempts = k - attempt + 1 := by
  intro fuel
  induction fuel with
  | zero =>
    intro attempt h1 hak hfuel
    have heq : attempt = k := by omega
    subst heq
    unfold makeRequestGo
    simp only [hsucc]
    exact ⟨trivial, by omega⟩
  | succ f ih =>
    intro attempt h1 hak hfuel
    by_cases hek : attempt = k
    · subst hek
      unfold makeRequestGo
      simp only [hsucc]
      exact ⟨trivial, by omega⟩
    · have hlt : attempt < k := by omega
      obtain ⟨e, he, hr⟩ := hfail attempt h1 hlt
      have hcond : (decide (attempt < cfg.MAX_ATTEMPTS) && shouldRetry e) = true := by
        rw [hr, decide_eq_true (by omega : attempt < cfg.MAX_ATTEMPTS)]
        rfl
      obtain ⟨hres, hatt⟩ := ih (attempt + 1) (by omega) (by omega) (by omega)
      unfold makeRequestGo
      simp only [he]
      rw [if_pos hcond]
      refine ⟨hres, ?_⟩
      show (makeRequestGo cfg oracle (attempt + 1) f).attempts + 1 = k - attempt + 1
      omega

/-- A run in which every attempt up to `MAX_ATTEMPTS` fails with a
retryable error: started at `1 ≤ attempt ≤ MAX_ATTEMPTS` with enough
fuel, it performs `MAX_ATTEMPTS - attempt + 1` fetches and throws the
error of the last attempt. -/
theorem makeRequestGo_exhaust (cfg : RetryConfig) (oracle : Nat → FetchOutcome)
    (err : Nat → JSError)
    (herr : ∀ i, 1 ≤ i → i ≤ cfg.MAX_ATTEMPTS →
      (runAttempt (oracle i)).result = .error (err i) ∧ shouldRetry (err i) = true) :
    ∀ fuel attempt, 1 ≤ attempt → attempt ≤ cfg.MAX_ATTEMPTS →
      cfg.MAX_ATTEMPTS - attempt ≤ fuel →
      (makeRequestGo cfg oracle attempt fuel).result = .error (err cfg.MAX_ATTEMPTS) ∧
      (makeRequestGo cfg oracle attempt fuel).attempts = cfg.MAX_ATTEMPTS - attempt + 1 := by
  intro fuel
  induction fuel with
  | zero =>
    intro attempt h1 hak hfuel
    have hmax : attempt = cfg.MAX_ATTEMPTS := by omega
    obtain ⟨he, _⟩ := herr attempt h1 hak
    unfold makeRequestGo
    simp only [he]
    rw [hmax]
    exact ⟨rfl, by omega⟩
  | succ f ih =>
    intro attempt h1 hak hfuel
    obtain ⟨he, hr⟩ := herr attempt h1 hak
    by_cases hek : attempt = cfg.MAX_ATTEMPTS
    · have hcond : ¬((decide (attempt < cfg.MAX_ATTEMPTS) && shouldRetry (err attempt)) = true) := by
        rw [decide_eq_false (by omega : ¬(attempt < cfg.MAX_ATTEMPTS))]
        simp
      unfold makeRequestGo
      simp only [he, if_neg hcond]
      rw [hek]
      exact ⟨rfl, by omega⟩
    · have hcond : (decide (attempt < cfg.MAX_ATTEMPTS) && shouldRetry (err attempt)) = true := by
        rw [hr, decide_eq_true (by omega : attempt < cfg.MAX_ATTEMPTS)]
        rfl
      obtain ⟨hres, hatt⟩ := ih (attempt + 1) (by omega) (by omega) (by omega)
      unfold makeRequestGo
      simp only [he]
      rw [if_pos hcond]
      refine ⟨hres, ?_⟩
      show (makeRequestGo cfg oracle (attempt + 1) f).attempts + 1 =
        cfg.MAX_ATTEMPTS - attempt + 1
      omega

/-- C1: for every request oracle and retry configuration with
`MAX_ATTEMPTS = N ≥ 1`, a `makeRequest` call started at `attempt = 1`
terminates (it is a total function of this embedding) and performs at
most `N` fetch attempts, because the attempt counter strictly increases
and retrying requires `attempt < MAX_ATTEMPTS`. -/
theorem C1_attempts_bounded_by_max (cfg : RetryConfig) (oracle : Nat → FetchOutcome)
    (hN : 1 ≤ cfg.MAX_ATTEMPTS) :
    (makeRequest cfg oracle).attempts ≤ cfg.MAX_ATTEMPTS := by
  have h := makeRequestGo_attempts_le cfg oracle cfg.MAX_ATTEMPTS 1
  unfold makeRequest
  omega

/-- Witness for C1 at the shipped configuration and a permanently
failing connection. -/
theorem C1_attempts_bounded_by_max_witness :
    1 ≤ CONFIG_API_RETRY.MAX_ATTEMPTS ∧
    (makeRequest CONFIG_API_RETRY (fun _ => .networkError "Failed to fetch")).attempts ≤
      CONFIG_API_RETRY.MAX_ATTEMPTS :=
  ⟨by decide,
   C1_attempts_bounded_by_max CONFIG_API_RETRY (fun _ => .networkError "Failed to fetch")
     (by decide)⟩

/-- C3: in every run, the delay slept after the retry decided at attempt
`k = i + 1` (so before attempt `k + 1`) is `DELAY * 2 ^ i`, i.e.
`base_delay * backoff_multiplier ^ (k - 1)` with the code's fixed
multiplier 2 — the first retry waits the unscaled base delay; and in
the spec's scenario (`MAX_ATTEMPTS = 3`, `DELAY = 1000`, every attempt a
503) the three attempts are separated by delays 1000 ms and 2000 ms
(cumulative waits 0, 1000, 3000) and the run fails with the last 503. -/
theorem C3_exponential_backoff (cfg : RetryConfig) (oracle : Nat → FetchOutcome) :
    (makeRequest cfg oracle).delays =
      (List.range ((makeRequest cfg oracle).attempts - 1)).map
        (fun i => cfg.DELAY * 2 ^ i) ∧
    makeRequest CONFIG_API_RETRY (fun _ => .httpError 503 "Service Unavailable") =
      { result := .error (httpErr 503 "Service Unavailable"), attempts := 3,
        delays := [1000, 2000] } := by
  constructor
  · have h := makeRequestGo_delays_eq cfg oracle cfg.MAX_ATTEMPTS 1 (le_refl 1)
    unfold makeRequest
    simpa using h
  · decide

/-- C4: if attempts `1..k-1` fail with retryable (transient) errors and
attempt `k ≤ MAX_ATTEMPTS` succeeds with payload `p`, then `makeRequest`
performs exactly `k` attempts (none after the success) and returns `p`. -/
theorem C4_success_returns_immediately (cfg : RetryConfig) (oracle : Nat → FetchOutcome)
    (k : Nat) (p : String)
    (hk1 : 1 ≤ k) (hkN : k ≤ cfg.MAX_ATTEMPTS)
    (hsucc : (runAttempt (oracle k)).result = .ok p)
    (hfail : ∀ i, 1 ≤ i → i < k →
      ∃ e, (runAttempt (oracle i)).result = .error e ∧ shouldRetry e = true) :
    (makeRequest cfg oracle).result = .ok p ∧
    (makeRequest cfg oracle).attempts = k := by
  obtain ⟨h1, h2⟩ := makeRequestGo_success cfg oracle k p hkN hsucc hfail
    cfg.MAX_ATTEMPTS 1 (le_refl 1) hk1 (by omega)
  unfold makeRequest
  exact ⟨h1, by omega⟩

/-- Witness for C4: success on attempt 2 after one transient failure. -/
theorem C4_success_returns_immediately_witness :
    (makeRequest CONFIG_API_RETRY successOracle2).result = .ok "converted" ∧
    (makeRequest CONFIG_API_RETRY successOracle2).attempts = 2 :=
  C4_success_returns_immediately CONFIG_API_RETRY successOracle2 2 "converted"
    (by decide) (by decide) (by decide)
    (fun i h1 h2 => by
      have hi : i = 1 := by omega
      subst hi
      exact ⟨netErr "Failed to fetch", by decide, by decide⟩)

/-- C5: with `MAX_ATTEMPTS = N ≥ 1` and every attempt failing with a
retryable (transient) error, `makeRequest` performs exactly `N` attempts
and throws the single error observed on attempt `N` — not an aggregate
of the `N` errors. -/
theorem C5_exhaustion_surfaces_last_error (cfg : RetryConfig) (oracle : Nat → FetchOutcome)
    (err : Nat → JSError)
    (hN : 1 ≤ cfg.MAX_ATTEMPTS)
    (herr : ∀ i, 1 ≤ i → i ≤ cfg.MAX_ATTEMPTS →
      (runAttempt (oracle i)).result = .error (err i) ∧ shouldRetry (err i) = true) :
    (makeRequest cfg oracle).result = .error (err cfg.MAX_ATTEMPTS) ∧
    (makeRequest cfg oracle).attempts = cfg.MAX_ATTEMPTS := by
  obtain ⟨h1, h2⟩ := makeRequestGo_exhaust cfg oracle err herr
    cfg.MAX_ATTEMPTS 1 (le_refl 1) hN (by omega)
  unfold makeRequest
  exact ⟨h1, by omega⟩

/-- Witness for C5 at the shipped configuration with a permanent 503. -/
theorem C5_exhaustion_surfaces_last_error_witness :
    1 ≤ CONFIG_API_RETRY.MAX_ATTEMPTS ∧
    (makeRequest CONFIG_API_RETRY (fun _ => .httpError 503 "Service Unavailable")).result =
      .error (httpErr 503 "Service Unavailable") ∧
    (makeRequest CONFIG_API_RETRY (fun _ => .httpError 503 "Service Unavailable")).attempts =
      CONFIG_API_RETRY.MAX_ATTEMPTS :=
  ⟨by decide,
   C5_exhaustion_surfaces_last_error CONFIG_API_RETRY
     (fun _ => .httpError 503 "Service Unavailable")
     (fun _ => httpErr 503 "Service Unavailable") (by decide)
     (fun i _ _ =>
       ⟨rfl, (by decide : shouldRetry (httpErr 503 "Service Unavailable") = true)⟩)⟩

/-- C6 is false on the code: with the shipped configuration, when the
in-flight fetch of attempt 1 rejects with an `AbortError`, a second
attempt IS made (the claim requires no further attempts) and the run
ends in a success, not a `Cancelled` failure. -/
theorem C6_counterexample_abort_is_retried :
    (makeRequest CONFIG_API_RETRY cancelOracle).attempts = 2 ∧
    ¬((makeRequest CONFIG_API_RETRY cancelOracle).attempts = 1) ∧
    (makeRequest CONFIG_API_RETRY cancelOracle).result = .ok "pong" := by
  decide

/-- C6 amended: an `AbortError` is classified retryable by
`shouldRetry` (its first disjunct), so when the fetch of attempt 1
rejects with an `AbortError` and `MAX_ATTEMPTS ≥ 2`, at least one
further attempt is made — the code never returns a distinct `Cancelled`
failure, and it overrides any caller-supplied signal with its own
timeout controller. -/
theorem C6_abort_error_is_retried (cfg : RetryConfig) (oracle : Nat → FetchOutcome)
    (e : JSError)
    (hN : 2 ≤ cfg.MAX_ATTEMPTS)
    (he : (runAttempt (oracle 1)).result = .error e)
    (hname : e.name = "AbortError") :
    shouldRetry e = true ∧ 2 ≤ (makeRequest cfg oracle).attempts := by
  have hsr : shouldRetry e = true := by
    unfold shouldRetry
    rw [hname]
    rfl
  refine ⟨hsr, ?_⟩
  unfold makeRequest
  obtain ⟨f, hf⟩ : ∃ f, cfg.MAX_ATTEMPTS = f + 1 := ⟨cfg.MAX_ATTEMPTS - 1, by omega⟩
  rw [hf]
  unfold makeRequestGo
  simp only [he]
  have hcond : (decide (1 < cfg.MAX_ATTEMPTS) && shouldRetry e) = true := by
    rw [hsr, decide_eq_true (by omega : 1 < cfg.MAX_ATTEMPTS)]
    rfl
  rw [if_pos hcond]
  have hpos := makeRequestGo_attempts_pos cfg oracle 2 f
  show 2 ≤ (makeRequestGo cfg oracle 2 f).attempts + 1
  omega

/-- Witness for the amended C6: every attempt aborts; a retry happens. -/
theorem C6_abort_error_is_retried_witness :
    shouldRetry abortErr = true ∧
    2 ≤ (makeRequest CONFIG_API_RETRY (fun _ => .abortError)).attempts :=
  C6_abort_error_is_retried CONFIG_API_RETRY (fun _ => .abortError) abortErr
    (by decide) rfl rfl

/-- C2 is false on the code: `shouldRetry` substring-matches the error
text against the character 5 (api.js line 68), so the 4xx response
`HTTP 405: Method Not Allowed` is classified transient and retried —
with the shipped configuration it costs 3 attempts, not the exactly 1
the claim requires — even though the spec's reference classification
(and the code's own comment, api.js line 65: retry on network errors,
timeouts, and 5xx server errors) makes every 4xx fatal. A 404 happens
to be classified fatal, as the claim says. -/
theorem C2_code_bug_405_is_retried :
    codeTransient (.httpError 405 "Method Not Allowed") = true ∧
    specTransient (.httpError 405 "Method Not Allowed") = false ∧
    shouldRetry (httpErr 405 "Method Not Allowed") = true ∧
    (makeRequest CONFIG_API_RETRY (fun _ => .httpError 405 "Method Not Allowed")).attempts = 3 ∧
    codeTransient (.httpError 404 "Not Found") = false ∧
    specTransient (.httpError 404 "Not Found") = false := by
  decide

/-- C8 is false on the code: on the path where the underlying fetch
rejects with a connection-level error before the timeout fires, the
catch block is entered without `clearTimeout` ever running (line 36 is
only reached after `await fetch` resolves), so an armed timeout handle
outlives the guarded call. The timer IS released on the ok path, on the
non-ok (thrown `HTTP ...`) path and on the timeout path, as the claim
says. -/
theorem C8_code_bug_timer_leak_on_rejection :
    (runAttempt (.networkError "Failed to fetch")).timerReleased = false ∧
    (runAttempt (.ok "pong")).timerReleased = true ∧
    (runAttempt (.httpError 503 "Service Unavailable")).timerReleased = true ∧
    (runAttempt .abortError).timerReleased = true := by
  decide

/-- Any value of the tagged union satisfies `wellTagged`. -/
theorem wellTagged_of {α : Type} (r : ApiResult α) : wellTagged r := by
  cases r with
  | success d =>
    exact Or.inl ⟨⟨d, rfl⟩, by rintro ⟨m, h⟩; exact ApiResult.noConfusion h⟩
  | failure m =>
    exact Or.inr ⟨⟨m, rfl⟩, by rintro ⟨d, h⟩; exact ApiResult.noConfusion h⟩

/-- C7: every public operation of the client returns a tagged result
with exactly one populated variant — success with a data payload, or
failure with an error reason — and the operations are total functions
of their inputs (the embedding of their top-level try/catch), so no
thrown fault escapes to the caller: in particular, whenever
`makeRequest` throws (a fatal error, or the last transient error after
retry-bound exhaustion), the operation returns a failure carrying that
error's message. -/
theorem C7_operations_return_tagged_results (cfg : RetryConfig)
    (oracle : Nat → FetchOutcome)
    (parseC : String → Except JSError ConvertPayload)
    (parseS : String → Except JSError String)
    (d : ConversionData) (base : String) :
    wellTagged (convertCurrency cfg oracle parseC d).1 ∧
    wellTagged (checkHealth cfg oracle parseS).1 ∧
    wellTagged (getExchangeRates cfg oracle parseS base) ∧
    wellTagged (getApiInfo cfg oracle parseS) ∧
    (∀ e, (makeRequest cfg oracle).result = .error e →
      (checkHealth cfg oracle parseS).1 = .failure e.message ∧
      getExchangeRates cfg oracle parseS base = .failure e.message ∧
      getApiInfo cfg oracle parseS = .failure e.message) := by
  refine ⟨wellTagged_of _, wellTagged_of _, wellTagged_of _, wellTagged_of _, ?_⟩
  intro e he
  unfold checkHealth getExchangeRates getApiInfo
  rw [he]
  exact ⟨rfl, rfl, rfl⟩

/-- Witness for C7 at the shipped configuration, a permanent 404, a
parse oracle that always succeeds, and a concrete conversion input. -/
theorem C7_operations_return_tagged_results_witness :
    wellTagged (convertCurrency CONFIG_API_RETRY (fun _ => .httpError 404 "Not Found")
      (fun s => .ok { success := true, error := none }) ⟨.num 100, "USD", "EUR"⟩).1 ∧
    wellTagged (checkHealth CONFIG_API_RETRY (fun _ => .httpError 404 "Not Found")
      (fun s => .ok s)).1 ∧
    wellTagged (getExchangeRates CONFIG_API_RETRY (fun _ => .httpError 404 "Not Found")
      (fun s => .ok s) "USD") ∧
    wellTagged (getApiInfo CONFIG_API_RETRY (fun _ => .httpError 404 "Not Found")
      (fun s => .ok s)) ∧
    (∀ e, (makeRequest CONFIG_API_RETRY (fun _ => .httpError 404 "Not Found")).result =
        .error e →
      (checkHealth CONFIG_API_RETRY (fun _ => .httpError 404 "Not Found")
        (fun s => .ok s)).1 = .failure e.message ∧
      getExchangeRates CONFIG_API_RETRY (fun _ => .httpError 404 "Not Found")
        (fun s => .ok s) "USD" = .failure e.message ∧
      getApiInfo CONFIG_API_RETRY (fun _ => .httpError 404 "Not Found")
        (fun s => .ok s) = .failure e.message) :=
  C7_operations_return_tagged_results CONFIG_API_RETRY
    (fun _ => .httpError 404 "Not Found")
    (fun s => .ok { success := true, error := none })
    (fun s => .ok s) ⟨.num 100, "USD", "EUR"⟩ "USD"

/-- A boolean that is not true is false. -/
theorem bool_eq_false_of_ne_true {b : Bool} (h : ¬(b = true)) : b = false := by
  cases b
  · rfl
  · exact absurd rfl h

/-- Left component of a false disjunction. -/
theorem bool_or_false_left {x y : Bool} (h : (x || y) = false) : x = false := by
  cases x
  · rfl
  · exact Bool.noConfusion h

/-- Right component of a false disjunction. -/
theorem bool_or_false_right {x y : Bool} (h : (x || y) = false) : y = false := by
  cases x
  · exact h
  · exact Bool.noConfusion h

/-- A boolean whose negation is false is true. -/
theorem bool_not_false {b : Bool} (h : (!b) = false) : b = true := by
  cases b
  · exact Bool.noConfusion h
  · rfl

/-- C9: on every invalid conversion input — amount missing, non-numeric
or not strictly positive, or source currency equal to target —
`convertCurrency` returns a failure result with an error message and
performs zero fetch attempts (no HTTP request, no retry delay). -/
theorem C9_invalid_input_fails_without_request (cfg : RetryConfig)
    (oracle : Nat → FetchOutcome)
    (parse : String → Except JSError ConvertPayload) (d : ConversionData)
    (h : invalidConversionInput d) :
    (∃ m, (convertCurrency cfg oracle parse d).1 = .failure m) ∧
    (convertCurrency cfg oracle parse d).2 = 0 := by
  unfold convertCurrency
  by_cases h1 : (!truthy d.amount || d.fromCurrency == "" || d.toCurrency == "") = true
  · rw [if_pos h1]
    exact ⟨⟨_, rfl⟩, rfl⟩
  · rw [if_neg h1]
    by_cases h2 : (jsIsNaN d.amount || jsLeZero d.amount) = true
    · rw [if_pos h2]
      exact ⟨⟨_, rfl⟩, rfl⟩
    · rw [if_neg h2]
      by_cases h3 : (d.fromCurrency == d.toCurrency) = true
      · rw [if_pos h3]
        exact ⟨⟨_, rfl⟩, rfl⟩
      · exfalso
        have g1 := bool_eq_false_of_ne_true h1
        have htr : truthy d.amount = true :=
          bool_not_false (bool_or_false_left (bool_or_false_left g1))
        have gnan : jsIsNaN d.amount = false :=
          bool_or_false_left (bool_eq_false_of_ne_true h2)
        have gle : jsLeZero d.amount = false :=
          bool_or_false_right (bool_eq_false_of_ne_true h2)
        have gft : (d.fromCurrency == d.toCurrency) = false :=
          bool_eq_false_of_ne_true h3
        rcases h with ha | ha | ⟨q, ha, hq⟩ | ⟨s, ha⟩ | ⟨s, q, ha, hq⟩ | hft
        · rw [ha] at htr
          exact Bool.noConfusion htr
        · rw [ha] at htr
          exact Bool.noConfusion htr
        · rw [ha] at gle
          exact of_decide_eq_false gle hq
        · rw [ha] at gnan
          exact Bool.noConfusion gnan
        · rw [ha] at gle
          exact of_decide_eq_false gle hq
        · rw [hft] at gft
          simp at gft

/-- Witness for C9: a negative numeric amount is rejected with zero
attempts. -/
theorem C9_invalid_input_fails_without_request_witness :
    (∃ m, (convertCurrency CONFIG_API_RETRY (fun _ => .ok "unused")
      (fun _ => .ok { success := true, error := none })
      ⟨.num (-5), "USD", "EUR"⟩).1 = .failure m) ∧
    (convertCurrency CONFIG_API_RETRY (fun _ => .ok "unused")
      (fun _ => .ok { success := true, error := none })
      ⟨.num (-5), "USD", "EUR"⟩).2 = 0 :=
  C9_invalid_input_fails_without_request CONFIG_API_RETRY (fun _ => .ok "unused")
    (fun _ => .ok { success := true, error := none }) ⟨.num (-5), "USD", "EUR"⟩
    (Or.inr (Or.inr (Or.inl ⟨-5, rfl, by norm_num⟩)))

/-- `fracDigits` always yields exactly `d` characters. -/
theorem fracDigits_length : ∀ d m : Nat, (fracDigits d m).length = d := by
  intro d
  induction d with
  | zero => intro m; rfl
  | succ n ih => intro m; simp [fracDigits, ih]

/-- With a nonzero digit count, `formatFixed` is an integer part, a
decimal point, and exactly `d` fraction digits. -/
theorem formatFixed_shape (q : ℚ) (d : Nat) (hd : ¬(d = 0)) :
    ∃ intPart fracPart : String,
      formatFixed q d = intPart ++ "." ++ fracPart ∧ fracPart.length = d := by
  unfold formatFixed
  rw [if_neg hd]
  refine ⟨_, _, rfl, ?_⟩
  exact fracDigits_length d _

example : formatAmount (7 / 2) "BTC" = "3.50" := by
  have h1 : (getCurrencyInfo "BTC").decimals = 2 := by decide
  have h2 : (⌊(7 / 2 : ℚ) * (10 : ℚ) ^ (2 : ℕ) + 1 / 2⌋ : ℤ) = 350 := by norm_num
  unfold formatAmount formatFixed
  rw [h1, h2]
  decide

example : formatAmount 100 "JPY" = "100" := by
  have h1 : (getCurrencyInfo "JPY").decimals = 0 := by decide
  have h2 : (⌊(100 : ℚ) * (10 : ℚ) ^ (0 : ℕ) + 1 / 2⌋ : ℤ) = 100 := by norm_num
  unfold formatAmount formatFixed
  rw [h1, h2]
  decide

/-- C10: `getCurrencyInfo` is total (a total function of this
embedding, returning a metadata record for every code): for every code
whose uppercased form is none of USD, EUR, GBP, JPY it returns the
fallback record — name and symbol the original code, the generic
currency flag, 2 decimals — and consequently `formatAmount` renders
every amount of such an unknown currency as a string with exactly 2
fraction digits rather than failing. -/
theorem C10_unknown_currency_fallback (code : String)
    (h : jsToUpper code ≠ "USD" ∧ jsToUpper code ≠ "EUR" ∧
      jsToUpper code ≠ "GBP" ∧ jsToUpper code ≠ "JPY") :
    getCurrencyInfo code =
      { name := code, symbol := code, flag := "💱", decimals := 2 } ∧
    ∀ q : ℚ, ∃ intPart fracPart : String,
      formatAmount q code = intPart ++ "." ++ fracPart ∧ fracPart.length = 2 := by
  obtain ⟨h1, h2, h3, h4⟩ := h
  have hnone : CURRENCY_INFO (jsToUpper code) = none := by
    unfold CURRENCY_INFO
    split
    · rename_i heq
      exact absurd heq h1
    · rename_i heq
      exact absurd heq h2
    · rename_i heq
      exact absurd heq h3
    · rename_i heq
      exact absurd heq h4
    · rfl
  constructor
  · unfold getCurrencyInfo
    rw [hnone]
    rfl
  · intro q
    have hdec : (getCurrencyInfo code).decimals = 2 := by
      unfold getCurrencyInfo
      rw [hnone]
      rfl
    unfold formatAmount
    rw [hdec]
    exact formatFixed_shape q 2 (by decide)

/-- Witness for C10 at the unknown code BTC. -/
theorem C10_unknown_currency_fallback_witness :
    getCurrencyInfo "BTC" =
      { name := "BTC", symbol := "BTC", flag := "💱", decimals := 2 } ∧
    ∀ q : ℚ, ∃ intPart fracPart : String,
      formatAmount q "BTC" = intPart ++ "." ++ fracPart ∧ fracPart.length = 2 :=
  C10_unknown_currency_fallback "BTC" ⟨by decide, by decide, by decide, by decide⟩
